import Mathlib

/-!
Verification development for the ACTS repository (Navigator + PassiveLayerBuilder).

The repository sources available are:
* `Tests/Core/Extrapolator/NavigatorTests.cpp` — the unit test driving the
  `Navigator` state machine (`status()` / `target()` cycles);
* `Core/src/Tools/PassiveLayerBuilder.cpp` — a geometry-construction tool;
* `Core/include/ACTS/Tools/LayerCreator.hpp` — a builder interface.

The `Navigator` implementation itself (`Acts/Extrapolator/Navigator.hpp`) is not
among the source files; only its test is.  Following the specification, the
Navigator state machine is therefore modelled from the spec (sections 3, 4.1,
4.2, 8): geometry data (volumes, layers, boundary surfaces, an intersection
oracle), a `NavigationState` cache, and the `status`/`target` operations with
candidate filtering (validity flag, positive signed distance), sorting
(increasing path length, ties broken by surface identity) and lazy candidate
re-population.  `PassiveLayerBuilder` is embedded directly from its C++ source.

All coordinates and path lengths use `ℚ` (the C++ uses `double`; the state
machine logic is exact arithmetic comparisons, which `ℚ` models faithfully).
-/

namespace ActsSpec

/-- A 3-vector with rational coordinates (models `Acts::Vector3D`). -/
structure Vec3 where
  x : ℚ
  y : ℚ
  z : ℚ
deriving DecidableEq

/-- Advance a position by `t` along direction `d`, `p + t * d`
(models `sstate.pos = sstate.pos + sstate.stepSize * sstate.dir`
from the test's `step` function). -/
def Vec3.madd (p : Vec3) (t : ℚ) (d : Vec3) : Vec3 :=
  ⟨p.x + t * d.x, p.y + t * d.y, p.z + t * d.z⟩

/-- Squared transverse radius `x² + y²` (models `Acts::VectorHelpers::perp`
squared; the square avoids an irrational square root). -/
def perpSq (p : Vec3) : ℚ :=
  p.x * p.x + p.y * p.y

/-- Modelled from the spec: the result of a Surface's intersection operation
"returning a point, path length, and validity flag against a given ray"
(spec section 3, `Surface`).  `path` is the signed distance along the
navigation direction from the query position. -/
structure Intersection where
  valid : Bool
  path : ℚ
  position : Vec3
deriving DecidableEq

/-- Modelled from the spec: surface categories gated by the Navigator's
`resolveSensitive` / `resolveMaterial` / `resolvePassive` switches
(spec sections 4.2 and 6). -/
inductive SurfaceCategory where
  | sensitive
  | material
  | passive
deriving DecidableEq

/-- Modelled from the spec: a `Layer` exposed to the Navigator — a
representative approach surface (produced by the ApproachDescriptor) plus the
contained surfaces, each tagged with its category (spec section 3, `Layer`). -/
structure LayerData where
  approachId : Nat
  surfaces : List (Nat × SurfaceCategory)
deriving DecidableEq

/-- Modelled from the spec: a `BoundarySurface` — "a Surface tagged with the
... TrackingVolumes it separates; used to decide which TrackingVolume a
trajectory enters next" (spec section 3).  `neighbor = none` means the
boundary leads out of the geometry. -/
structure BoundaryData where
  surface : Nat
  neighbor : Option Nat
deriving DecidableEq

/-- Modelled from the spec: a `TrackingVolume` owning "zero or more Layers
... and a fixed set of BoundarySurfaces" (spec section 3). Layers are indices
into the geometry's layer table. -/
structure VolumeData where
  layers : List Nat
  boundaries : List BoundaryData
deriving DecidableEq

/-- Modelled from the spec: the `TrackingGeometry` — the volume table, the
layer table, the point-to-volume lookup `volume(point)` (spec section 3), and
the intersection oracle `intersect surfaceId position direction` implementing
each surface's intersection operation. -/
structure TrackingGeometry where
  volumes : List VolumeData
  layers : List LayerData
  volumeAt : Vec3 → Option Nat
  intersect : Nat → Vec3 → Vec3 → Intersection

/-- Modelled from the spec: the Navigator's configuration surface — the three
resolve switches and the scalar on-surface tolerance (spec section 6). -/
structure NavigatorCfg where
  resolveSensitive : Bool
  resolveMaterial : Bool
  resolvePassive : Bool
  tol : ℚ
deriving DecidableEq

/-- Which of the three candidate sequences a targeted candidate belongs to. -/
inductive SeqKind where
  | surfaces
  | layers
  | boundaries
deriving DecidableEq

/-- Modelled from the spec: a navigation candidate — an object reference
(`oid`: layer index for layer candidates, surface id otherwise), the surface
id to intersect (`sid`: the approach surface for a layer candidate), and the
"precomputed intersection (position + path length) relative to the state at
the time of resolution" (spec section 3, `NavigationState`). -/
structure Candidate where
  oid : Nat
  sid : Nat
  intersection : Intersection
deriving DecidableEq

/-- Modelled from the spec: the `NavigationState` mutable cache
(spec section 3): start/current volume and surface, the three ordered
candidate sequences each with an iterator (modelled as an index), lazy
resolution flags for each sequence, and the candidate currently targeted by
`target()` (spec section 4.1: status checks "the currently-targeted
candidate"). -/
structure NavigationState where
  initialized : Bool
  startVolume : Option Nat
  currentVolume : Option Nat
  currentSurface : Option Nat
  navSurfaces : List Candidate
  navSurfaceIdx : Nat
  surfacesResolved : Bool
  navLayers : List Candidate
  navLayerIdx : Nat
  layersResolved : Bool
  navBoundaries : List Candidate
  navBoundaryIdx : Nat
  boundariesResolved : Bool
  targeted : Option (SeqKind × Nat)
deriving DecidableEq

/-- The uninitialized `NavigationState` a propagation starts with. -/
def initialState : NavigationState where
  initialized := false
  startVolume := none
  currentVolume := none
  currentSurface := none
  navSurfaces := []
  navSurfaceIdx := 0
  surfacesResolved := false
  navLayers := []
  navLayerIdx := 0
  layersResolved := false
  navBoundaries := []
  navBoundaryIdx := 0
  boundariesResolved := false
  targeted := none

/-- Candidate ordering: by increasing path length, ties broken by surface
identity (spec section 3 invariant: "sorted by increasing path length from
the current position, ties broken by object address/identity"). -/
def candLE (a b : Candidate) : Prop :=
  a.intersection.path < b.intersection.path ∨
    (a.intersection.path = b.intersection.path ∧ a.sid ≤ b.sid)

instance : DecidableRel candLE := fun a b => by
  unfold candLE
  infer_instance

/-- A candidate is viable when its validity flag is set and its signed
distance along the navigation direction is positive (spec section 4.2:
"a candidate with non-positive distance along the current direction, or whose
validity flag is false, is excluded before sorting"). -/
def viableb (c : Candidate) : Bool :=
  c.intersection.valid && decide (0 < c.intersection.path)

/-- Insert a candidate into a sorted candidate list. -/
def insertSorted (c : Candidate) : List Candidate → List Candidate
  | [] => [c]
  | x :: xs => if candLE c x then c :: x :: xs else x :: insertSorted c xs

/-- Insertion sort of candidates by `candLE`. -/
def sortCands (l : List Candidate) : List Candidate :=
  l.foldr insertSorted []

/-- Candidate list construction: exclude non-viable candidates, then sort
(spec section 4.2 numeric semantics). -/
def filterSort (l : List Candidate) : List Candidate :=
  sortCands (l.filter viableb)

theorem candLE_total (a b : Candidate) : candLE a b ∨ candLE b a := by
  unfold candLE
  rcases lt_trichotomy a.intersection.path b.intersection.path with h | h | h
  · exact Or.inl (Or.inl h)
  · rcases Nat.le_total a.sid b.sid with hs | hs
    · exact Or.inl (Or.inr ⟨h, hs⟩)
    · exact Or.inr (Or.inr ⟨h.symm, hs⟩)
  · exact Or.inr (Or.inl h)

theorem candLE_trans {a b c : Candidate} (hab : candLE a b) (hbc : candLE b c) :
    candLE a c := by
  unfold candLE at *
  rcases hab with h1 | ⟨h1, h1'⟩ <;> rcases hbc with h2 | ⟨h2, h2'⟩
  · exact Or.inl (h1.trans h2)
  · exact Or.inl (h2 ▸ h1)
  · exact Or.inl (h1 ▸ h2)
  · exact Or.inr ⟨h1.trans h2, h1'.trans h2'⟩

theorem mem_insertSorted {x c : Candidate} :
    ∀ {l : List Candidate}, x ∈ insertSorted c l ↔ x = c ∨ x ∈ l := by
  intro l
  induction l with
  | nil => simp [insertSorted]
  | cons h t ih =>
    by_cases hc : candLE c h
    · simp [insertSorted, hc]
    · simp only [insertSorted, if_neg hc, List.mem_cons, ih]
      tauto

theorem pairwise_insertSorted {c : Candidate} :
    ∀ {l : List Candidate}, l.Pairwise candLE →
      (insertSorted c l).Pairwise candLE := by
  intro l
  induction l with
  | nil => intro _; simp [insertSorted]
  | cons h t ih =>
    intro hp
    rcases List.pairwise_cons.mp hp with ⟨hht, hpt⟩
    by_cases hc : candLE c h
    · simp only [insertSorted, if_pos hc]
      refine List.pairwise_cons.mpr ⟨?_, hp⟩
      intro y hy
      rcases List.mem_cons.mp hy with rfl | hyt
      · exact hc
      · exact candLE_trans hc (hht y hyt)
    · simp only [insertSorted, if_neg hc]
      refine List.pairwise_cons.mpr ⟨?_, ih hpt⟩
      intro y hy
      rcases mem_insertSorted.mp hy with rfl | hyt
      · rcases candLE_total h y with hh | hh
        · exact hh
        · exact absurd hh hc
      · exact hht y hyt

theorem pairwise_sortCands (l : List Candidate) :
    (sortCands l).Pairwise candLE := by
  induction l with
  | nil => simp [sortCands]
  | cons h t ih => exact pairwise_insertSorted ih

theorem mem_sortCands {x : Candidate} :
    ∀ {l : List Candidate}, x ∈ sortCands l ↔ x ∈ l := by
  intro l
  induction l with
  | nil => simp [sortCands]
  | cons h t ih =>
    simp only [sortCands, List.foldr_cons, List.mem_cons]
    rw [show List.foldr insertSorted [] t = sortCands t from rfl] at *
    rw [mem_insertSorted, ih]

theorem pairwise_filterSort (l : List Candidate) :
    (filterSort l).Pairwise candLE :=
  pairwise_sortCands _

theorem mem_filterSort {x : Candidate} {l : List Candidate} :
    x ∈ filterSort l ↔ x ∈ l ∧ viableb x = true := by
  unfold filterSort
  rw [mem_sortCands, List.mem_filter]

/-- The current intersection of a candidate's surface, re-evaluated at the
given position/direction through the geometry's intersection oracle. -/
def interAt (geo : TrackingGeometry) (pos dir : Vec3) (c : Candidate) :
    Intersection :=
  geo.intersect c.sid pos dir

/-- Scan a candidate list from position `i` for the first candidate whose
current intersection is valid with strictly positive distance; returns its
index and that distance (spec section 4.2: non-positive or invalid candidates
are excluded). -/
def nextViableAux (f : Candidate → Intersection) :
    List Candidate → Nat → Option (Nat × ℚ)
  | [], _ => none
  | c :: cs, i =>
    let it := f c
    if it.valid = true ∧ 0 < it.path then some (i, it.path)
    else nextViableAux f cs (i + 1)

/-- First viable candidate at or after the iterator position `i`. -/
def nextViable (f : Candidate → Intersection) (l : List Candidate) (i : Nat) :
    Option (Nat × ℚ) :=
  nextViableAux f (l.drop i) i

theorem nextViableAux_pos {f : Candidate → Intersection} :
    ∀ {l : List Candidate} {i j : Nat} {d : ℚ},
      nextViableAux f l i = some (j, d) → 0 < d := by
  intro l
  induction l with
  | nil => intro i j d h; simp [nextViableAux] at h
  | cons c cs ih =>
    intro i j d h
    simp only [nextViableAux] at h
    split at h
    · rename_i hv
      cases h
      exact hv.2
    · exact ih h

theorem nextViable_pos {f : Candidate → Intersection} {l : List Candidate}
    {i j : Nat} {d : ℚ} (h : nextViable f l i = some (j, d)) : 0 < d :=
  nextViableAux_pos h

/-- Which categories a Navigator configuration includes in `navSurfaces`
(spec section 6: the switches "independently gate inclusion of each surface
category into candidate lists"). -/
def catFlag (cfg : NavigatorCfg) : SurfaceCategory → Bool
  | SurfaceCategory.sensitive => cfg.resolveSensitive
  | SurfaceCategory.material => cfg.resolveMaterial
  | SurfaceCategory.passive => cfg.resolvePassive

/-- Modelled from the spec: populate `navSurfaces` on entering a layer —
"populate navSurfaces from the layer's SurfaceArray filtered by the resolve
switches" (spec section 4.2, step 2), excluding non-viable candidates and
sorting (spec section 4.2 numeric semantics). -/
def resolveSurfaceCands (geo : TrackingGeometry) (cfg : NavigatorCfg)
    (lid : Nat) (pos dir : Vec3) : List Candidate :=
  match geo.layers[lid]? with
  | none => []
  | some L =>
    filterSort
      ((L.surfaces.filter (fun p => catFlag cfg p.2)).map
        (fun p => ⟨p.1, p.1, geo.intersect p.1 pos dir⟩))

/-- Modelled from the spec: populate `navLayers` from the current volume's
layers; each layer candidate carries the intersection of its approach surface
(spec sections 4.1/4.2). -/
def resolveLayerCands (geo : TrackingGeometry) (vol : Option Nat)
    (pos dir : Vec3) : List Candidate :=
  match vol with
  | none => []
  | some vi =>
    match geo.volumes[vi]? with
    | none => []
    | some v =>
      filterSort
        (v.layers.filterMap
          (fun lid =>
            (geo.layers[lid]?).map
              (fun L => ⟨lid, L.approachId, geo.intersect L.approachId pos dir⟩)))

/-- Modelled from the spec: populate `navBoundaries` from the current
volume's boundary surfaces (spec section 4.2, step 4: lazy re-population). -/
def resolveBoundaryCands (geo : TrackingGeometry) (vol : Option Nat)
    (pos dir : Vec3) : List Candidate :=
  match vol with
  | none => []
  | some vi =>
    match geo.volumes[vi]? with
    | none => []
    | some v =>
      filterSort
        (v.boundaries.map
          (fun b => ⟨b.surface, b.surface, geo.intersect b.surface pos dir⟩))

/-- The neighboring volume attached to a boundary surface of the current
volume (spec section 3, `BoundarySurface`). -/
def lookupNeighbor (geo : TrackingGeometry) (vol : Option Nat) (sid : Nat) :
    Option Nat :=
  match vol with
  | none => none
  | some vi =>
    match geo.volumes[vi]? with
    | none => none
    | some v =>
      match v.boundaries.find? (fun b => decide (b.surface = sid)) with
      | none => none
      | some b => b.neighbor

/-- Look up the candidate a `targeted` marker refers to. -/
def getCand (s : NavigationState) : SeqKind → Nat → Option Candidate
  | SeqKind.surfaces, i => s.navSurfaces[i]?
  | SeqKind.layers, i => s.navLayers[i]?
  | SeqKind.boundaries, i => s.navBoundaries[i]?

/-- Absolute value on `ℚ`, written out so that it evaluates by kernel
reduction. -/
def absQ (q : ℚ) : ℚ := if q < 0 then -q else q

/-- The position satisfies a targeted surface when its re-evaluated
intersection is valid and its distance is within the on-surface tolerance
(spec section 4.1: "within a fixed on-surface tolerance"; the same scalar is
"reused for both surface-reached and boundary-reached checks",
spec section 4.2). -/
def onSurface (geo : TrackingGeometry) (cfg : NavigatorCfg) (pos dir : Vec3)
    (sid : Nat) : Prop :=
  (geo.intersect sid pos dir).valid = true ∧
    absQ (geo.intersect sid pos dir).path ≤ cfg.tol

instance (geo : TrackingGeometry) (cfg : NavigatorCfg) (pos dir : Vec3)
    (sid : Nat) : Decidable (onSurface geo cfg pos dir sid) := by
  unfold onSurface
  infer_instance

/-- Modelled from the spec: the volume transition performed when a boundary
candidate is confirmed — "switch `currentVolume` to the neighboring volume
and reset `navLayers`/`navBoundaries` for the new volume"
(spec section 4.1); all candidate sequences are cleared and their lazy
resolution flags dropped so the next `target()` re-populates them from the
new volume. -/
def volumeSwitch (geo : TrackingGeometry) (s : NavigationState)
    (c : Candidate) : NavigationState :=
  { s with
    currentSurface := some c.sid
    currentVolume := lookupNeighbor geo s.currentVolume c.sid
    navSurfaces := []
    navSurfaceIdx := 0
    surfacesResolved := false
    navLayers := []
    navLayerIdx := 0
    layersResolved := false
    navBoundaries := []
    navBoundaryIdx := 0
    boundariesResolved := false
    targeted := none }

/-- Modelled from the spec: `status(propagationState)` (spec section 4.1).
"if navigation is uninitialized, resolve startVolume from
trackingGeometry.volume(position), set currentVolume = startVolume, clear all
candidate sequences, transition to Initialized.  Otherwise, check whether the
position satisfies the currently-targeted candidate (within a fixed
on-surface tolerance); if satisfied, advance that sequence's iterator and, if
it was a boundary, switch currentVolume to the neighboring volume and reset
navLayers/navBoundaries for the new volume."  On reaching a layer the layer's
surfaces are resolved into `navSurfaces` (surface population "on entering a
layer", spec section 8 candidate-filtering property); the layer iterator is
only advanced once its surfaces are exhausted (observed in the test:
`navLayerIter == navLayers.begin()` still holds after reaching the beam
pipe).  Returns the new state together with the surface confirmed as reached
by this call, if any. -/
def status (geo : TrackingGeometry) (cfg : NavigatorCfg) (pos dir : Vec3)
    (s : NavigationState) : NavigationState × Option Nat :=
  if s.initialized = false then
    ({ initialized := true
       startVolume := geo.volumeAt pos
       currentVolume := geo.volumeAt pos
       currentSurface := none
       navSurfaces := []
       navSurfaceIdx := 0
       surfacesResolved := false
       navLayers := []
       navLayerIdx := 0
       layersResolved := false
       navBoundaries := []
       navBoundaryIdx := 0
       boundariesResolved := false
       targeted := none }, none)
  else
    match s.targeted with
    | none => (s, none)
    | some (k, i) =>
      match getCand s k i with
      | none => (s, none)
      | some c =>
        if onSurface geo cfg pos dir c.sid then
          match k with
          | SeqKind.surfaces =>
            ({ s with
               currentSurface := some c.sid
               navSurfaceIdx := i + 1
               targeted := none }, some c.sid)
          | SeqKind.layers =>
            ({ s with
               currentSurface := some c.sid
               navSurfaces := resolveSurfaceCands geo cfg c.oid pos dir
               navSurfaceIdx := 0
               surfacesResolved := true
               targeted := none }, some c.sid)
          | SeqKind.boundaries => (volumeSwitch geo s c, some c.sid)
        else (s, none)

/-- Modelled from the spec: `target()` resolution step 3/4 — boundary
targeting with lazy re-population: "populate navBoundaries from the current
volume's boundary surfaces (lazy re-population ...) and retry once; if still
empty, report exhaustion without modifying the stepper step size"
(spec section 4.2).  The returned `none` step size is the `GeometryExhausted`
report. -/
def target3 (geo : TrackingGeometry) (pos dir : Vec3) (s : NavigationState) :
    NavigationState × Option ℚ :=
  if s.boundariesResolved then
    match nextViable (interAt geo pos dir) s.navBoundaries s.navBoundaryIdx with
    | some (i, d) =>
      ({ s with navBoundaryIdx := i, targeted := some (SeqKind.boundaries, i) },
        some d)
    | none => (s, none)
  else
    match nextViable (interAt geo pos dir)
        (resolveBoundaryCands geo s.currentVolume pos dir) 0 with
    | some (i, d) =>
      ({ s with
         navBoundaries := resolveBoundaryCands geo s.currentVolume pos dir
         navBoundaryIdx := i
         boundariesResolved := true
         targeted := some (SeqKind.boundaries, i) }, some d)
    | none =>
      ({ s with
         navBoundaries := resolveBoundaryCands geo s.currentVolume pos dir
         navBoundaryIdx := 0
         boundariesResolved := true }, none)

/-- Modelled from the spec: `target()` resolution step 2 — layer targeting.
Layers are resolved lazily for the current volume; a pending layer candidate
is targeted through its approach surface (spec section 4.2). -/
def target2 (geo : TrackingGeometry) (pos dir : Vec3) (s : NavigationState) :
    NavigationState × Option ℚ :=
  if s.layersResolved then
    match nextViable (interAt geo pos dir) s.navLayers s.navLayerIdx with
    | some (i, d) =>
      ({ s with navLayerIdx := i, targeted := some (SeqKind.layers, i) }, some d)
    | none => target3 geo pos dir s
  else
    match nextViable (interAt geo pos dir)
        (resolveLayerCands geo s.currentVolume pos dir) 0 with
    | some (i, d) =>
      ({ s with
         navLayers := resolveLayerCands geo s.currentVolume pos dir
         navLayerIdx := i
         layersResolved := true
         targeted := some (SeqKind.layers, i) }, some d)
    | none =>
      target3 geo pos dir
        { s with
          navLayers := resolveLayerCands geo s.currentVolume pos dir
          navLayerIdx := 0
          layersResolved := true }

/-- Modelled from the spec: `target(propagationState)` (spec section 4.2) —
"resolves what the stepper should aim for next and writes a step-size
constraint (distance to the next candidate, signed by navigation direction)".
Resolution order: pending layer surfaces first, then layers, then boundaries;
when the resolved surfaces of the current layer are exhausted the layer
iterator is advanced past that layer.  Returns the new state and the step
size written to the stepper (`none` = `GeometryExhausted`, stepper step size
left unmodified). -/
def target (geo : TrackingGeometry) (pos dir : Vec3) (s : NavigationState) :
    NavigationState × Option ℚ :=
  if s.surfacesResolved then
    match nextViable (interAt geo pos dir) s.navSurfaces s.navSurfaceIdx with
    | some (i, d) =>
      ({ s with navSurfaceIdx := i, targeted := some (SeqKind.surfaces, i) },
        some d)
    | none =>
      target2 geo pos dir
        { s with
          surfacesResolved := false
          navSurfaces := []
          navSurfaceIdx := 0
          navLayerIdx := s.navLayerIdx + 1 }
  else target2 geo pos dir s

/-- The stepper state the Navigator interacts with (models the test's
`PropagatorState::StepperState`): position, direction, the mutable step-size
constraint field, and the accumulated path length. -/
structure StepperState where
  pos : Vec3
  dir : Vec3
  stepSize : ℚ
  pathAccumulated : ℚ
deriving DecidableEq

/-- The full propagation state handed to `status()`/`target()` (models the
test's `PropagatorState`). -/
structure PropState where
  stepping : StepperState
  navigation : NavigationState
deriving DecidableEq

/-- Run `status()` on the full propagation state: mutates only the navigation
cache (spec section 4.1 side effect: "never mutates the stepper's
position"). -/
def statusFull (geo : TrackingGeometry) (cfg : NavigatorCfg) (p : PropState) :
    PropState :=
  { p with
    navigation := (status geo cfg p.stepping.pos p.stepping.dir p.navigation).1 }

/-- Run `target()` on the full propagation state: writes the step-size constraint
into the stepper state when one is produced; on exhaustion the stepper state
is left unmodified (spec section 4.2, step 4). -/
def targetFull (geo : TrackingGeometry) (p : PropState) : PropState :=
  match target geo p.stepping.pos p.stepping.dir p.navigation with
  | (s, some d) => { stepping := { p.stepping with stepSize := d }, navigation := s }
  | (s, none) => { p with navigation := s }

/-- One exact stepper advance (models the test's `step` function: the
position moves by `stepSize * dir` and the accumulated path grows by
`stepSize`). -/
def doStep (st : StepperState) : StepperState :=
  { st with
    pos := st.pos.madd st.stepSize st.dir
    pathAccumulated := st.pathAccumulated + st.stepSize }

/-- The propagation loop of the test, driven for `fuel` iterations: each
iteration calls `status()` (recording any surface confirmed as visited
together with the path length from the trajectory's start at which it was
visited), then `target()`, and — if a step-size constraint was produced —
steps exactly that constraint.  Stops on `GeometryExhausted`. -/
def runAux (geo : TrackingGeometry) (cfg : NavigatorCfg) :
    Nat → PropState → List (Nat × ℚ) → List (Nat × ℚ) × PropState
  | 0, p, acc => (acc, p)
  | fuel + 1, p, acc =>
    let st := status geo cfg p.stepping.pos p.stepping.dir p.navigation
    let acc' :=
      match st.2 with
      | some sid => acc ++ [(sid, p.stepping.pathAccumulated)]
      | none => acc
    let p1 : PropState := { p with navigation := st.1 }
    let tg := target geo p1.stepping.pos p1.stepping.dir p1.navigation
    match tg.2 with
    | none => (acc', { p1 with navigation := tg.1 })
    | some d =>
      runAux geo cfg fuel
        { stepping := doStep { p1.stepping with stepSize := d }
          navigation := tg.1 } acc'

/-- Run a propagation from a given propagation state with an empty visit
record. -/
def run (geo : TrackingGeometry) (cfg : NavigatorCfg) (fuel : Nat)
    (p : PropState) : List (Nat × ℚ) × PropState :=
  runAux geo cfg fuel p []

/-!
### PassiveLayerBuilder (embedded from `Core/src/Tools/PassiveLayerBuilder.cpp`)

`std::vector::at` throws `std::out_of_range` on a bad index; the embedding
returns `Option`, with `none` standing for the escaped exception.  Material
objects are opaque data here, modelled as `ℚ`; `MaterialProperties(mat, th)`
is modelled as the pair `(mat, th)`.
-/

/-- Configuration of `PassiveLayerBuilder` (the `Config` struct consumed by
`constructLayers`). -/
structure PLBConfig where
  centralLayerRadii : List ℚ
  centralLayerHalflengthZ : List ℚ
  centralLayerThickness : List ℚ
  centralLayerMaterial : List ℚ
  posnegLayerPositionZ : List ℚ
  posnegLayerRmin : List ℚ
  posnegLayerRmax : List ℚ
  posnegLayerThickness : List ℚ
  posnegLayerMaterial : List ℚ
deriving DecidableEq

/-- A central passive cylinder layer as built by `constructLayers`
(`CylinderLayer::create` with `CylinderBounds(radius, halfZ)`, the layer
thickness, and the optional homogeneous surface material). -/
structure CylLayerRec where
  radius : ℚ
  halfZ : ℚ
  thickness : ℚ
  material : Option (ℚ × ℚ)
deriving DecidableEq

/-- A positive/negative-side passive disc layer as built by
`constructLayers` (`DiscLayer::create` with `RadialBounds(rmin, rmax)`, a
translation to signed `z`, the layer thickness, and the optional homogeneous
surface material). -/
structure DiscLayerRec where
  z : ℚ
  rmin : ℚ
  rmax : ℚ
  thickness : ℚ
  material : Option (ℚ × ℚ)
deriving DecidableEq

/-- Build a list from `f 0, ..., f (n-1)`, failing if any element fails
(models a loop of `.at` accesses, where one bad index throws). -/
def buildRange (f : Nat → Option α) : Nat → Option (List α)
  | 0 => some []
  | n + 1 => do
    let xs ← buildRange f n
    let x ← f n
    pure (xs ++ [x])

/-- One iteration of the central-layer loop of `constructLayers`
(lines 56-91 of `PassiveLayerBuilder.cpp`): a cylinder layer from entry `i`
of the parallel configuration vectors, accessed via `.at` (modelled as
`[i]?`); material only when the material list is non-empty. -/
def buildCentralEntry (cfg : PLBConfig) (i : Nat) : Option CylLayerRec := do
  let r ← cfg.centralLayerRadii[i]?
  let hz ← cfg.centralLayerHalflengthZ[i]?
  let th ← cfg.centralLayerThickness[i]?
  let mat ←
    if cfg.centralLayerMaterial.isEmpty then some none
    else (cfg.centralLayerMaterial[i]?).map (fun m => some (m, th))
  pure { radius := r, halfZ := hz, thickness := th, material := mat }

/-- The central-layer loop of `constructLayers`: one cylinder layer per entry
of `centralLayerRadii`. -/
def buildCentral (cfg : PLBConfig) : Option (List CylLayerRec) :=
  buildRange (buildCentralEntry cfg) cfg.centralLayerRadii.length

/-- One iteration of the positive/negative-side loop of `constructLayers`
(lines 93-150): from entry `i` one disc layer at `-z` (for `m_nLayers`) and
one at `+z` (for `m_pLayers`), sharing bounds, thickness and optional
material. -/
def buildPosnegEntry (cfg : PLBConfig) (i : Nat) :
    Option (DiscLayerRec × DiscLayerRec) := do
  let zp ← cfg.posnegLayerPositionZ[i]?
  let rmin ← cfg.posnegLayerRmin[i]?
  let rmax ← cfg.posnegLayerRmax[i]?
  let th ← cfg.posnegLayerThickness[i]?
  let mat ←
    if cfg.posnegLayerMaterial.isEmpty then some none
    else (cfg.posnegLayerMaterial[i]?).map (fun m => some (m, th))
  let nl : DiscLayerRec :=
    { z := -zp, rmin := rmin, rmax := rmax, thickness := th, material := mat }
  let pl : DiscLayerRec :=
    { z := zp, rmin := rmin, rmax := rmax, thickness := th, material := mat }
  pure (nl, pl)

/-- The positive/negative-side loop of `constructLayers`: per entry of
`posnegLayerPositionZ` one negative-side and one positive-side disc layer. -/
def buildPosneg (cfg : PLBConfig) :
    Option (List DiscLayerRec × List DiscLayerRec) :=
  match buildRange (buildPosnegEntry cfg) cfg.posnegLayerPositionZ.length with
  | none => none
  | some pairs => some (pairs.map Prod.fst, pairs.map Prod.snd)

/-- Embeds `PassiveLayerBuilder::constructLayers`: flush the three stored layer
vectors, then rebuild them from the configuration alone.  Returns the new
`(m_cLayers, m_nLayers, m_pLayers)` contents, or `none` if an `.at` access
threw. -/
def constructLayers (cfg : PLBConfig) :
    Option (List CylLayerRec × List DiscLayerRec × List DiscLayerRec) :=
  match buildCentral cfg with
  | none => none
  | some c =>
    match buildPosneg cfg with
    | none => none
    | some np => some (c, np.1, np.2)

/-- The `PassiveLayerBuilder` object: its configuration and the three stored
layer vectors `m_cLayers`, `m_nLayers`, `m_pLayers`. -/
structure PassiveLayerBuilder where
  cfg : PLBConfig
  cLayers : List CylLayerRec
  nLayers : List DiscLayerRec
  pLayers : List DiscLayerRec
deriving DecidableEq

/-- Embeds `PassiveLayerBuilder::setConfiguration`: store the new configuration and
run `constructLayers`, which clears the previously stored layers and rebuilds
them from the new configuration only. -/
def setConfiguration (b : PassiveLayerBuilder) (cfg : PLBConfig) :
    Option PassiveLayerBuilder :=
  (constructLayers cfg).map
    (fun cnp =>
      { b with
        cfg := cfg
        cLayers := cnp.1
        nLayers := cnp.2.1
        pLayers := cnp.2.2 })

/-- An empty configuration (all member vectors default-constructed). -/
def emptyPLBConfig : PLBConfig where
  centralLayerRadii := []
  centralLayerHalflengthZ := []
  centralLayerThickness := []
  centralLayerMaterial := []
  posnegLayerPositionZ := []
  posnegLayerRmin := []
  posnegLayerRmax := []
  posnegLayerThickness := []
  posnegLayerMaterial := []

/-- The `PassiveLayerBuilder` constructor: member-initializes empty layer
vectors, then calls `setConfiguration(plConfig)`. -/
def mkPassiveLayerBuilder (cfg : PLBConfig) : Option PassiveLayerBuilder :=
  setConfiguration
    { cfg := emptyPLBConfig, cLayers := [], nLayers := [], pLayers := [] } cfg

/-!
### Helper lemmas about `target` and the propagation loop
-/

theorem target3_pos {geo : TrackingGeometry} {pos dir : Vec3}
    {s s' : NavigationState} {d : ℚ}
    (h : target3 geo pos dir s = (s', some d)) : 0 < d := by
  unfold target3 at h
  split at h
  · split at h
    · rename_i i d' heq
      rw [Prod.mk.injEq] at h
      cases h.2
      exact nextViable_pos heq
    · rw [Prod.mk.injEq] at h
      simp at h
  · split at h
    · rename_i i d' heq
      rw [Prod.mk.injEq] at h
      cases h.2
      exact nextViable_pos heq
    · rw [Prod.mk.injEq] at h
      simp at h

theorem target2_pos {geo : TrackingGeometry} {pos dir : Vec3}
    {s s' : NavigationState} {d : ℚ}
    (h : target2 geo pos dir s = (s', some d)) : 0 < d := by
  unfold target2 at h
  split at h
  · split at h
    · rename_i i d' heq
      rw [Prod.mk.injEq] at h
      cases h.2
      exact nextViable_pos heq
    · exact target3_pos h
  · split at h
    · rename_i i d' heq
      rw [Prod.mk.injEq] at h
      cases h.2
      exact nextViable_pos heq
    · exact target3_pos h

theorem target_pos {geo : TrackingGeometry} {pos dir : Vec3}
    {s s' : NavigationState} {d : ℚ}
    (h : target geo pos dir s = (s', some d)) : 0 < d := by
  unfold target at h
  split at h
  · split at h
    · rename_i i d' heq
      rw [Prod.mk.injEq] at h
      cases h.2
      exact nextViable_pos heq
    · exact target2_pos h
  · exact target2_pos h

theorem target_pos_snd {geo : TrackingGeometry} {pos dir : Vec3}
    {s : NavigationState} {d : ℚ}
    (h : (target geo pos dir s).2 = some d) : 0 < d :=
  @target_pos geo pos dir s (target geo pos dir s).1 d
    (Prod.ext_iff.mpr ⟨rfl, h⟩)

theorem runAux_visits_pairwise (geo : TrackingGeometry) (cfg : NavigatorCfg) :
    ∀ (fuel : Nat) (p : PropState) (acc : List (Nat × ℚ)),
      acc.Pairwise (fun a b => a.2 < b.2) →
      (∀ q ∈ acc, q.2 < p.stepping.pathAccumulated) →
      ((runAux geo cfg fuel p acc).1).Pairwise (fun a b => a.2 < b.2) := by
  intro fuel
  induction fuel with
  | zero => intro p acc hp _; exact hp
  | succ m ih =>
    intro p acc hp hlt
    have hacc' :
        ∀ acc', (acc' = acc ∨
            acc' = acc ++ [((status geo cfg p.stepping.pos p.stepping.dir
              p.navigation).2.getD 0, p.stepping.pathAccumulated)]) →
          acc'.Pairwise (fun a b => a.2 < b.2) ∧
            (∀ q ∈ acc', q.2 ≤ p.stepping.pathAccumulated) := by
      intro acc' hcase
      rcases hcase with rfl | rfl
      · exact ⟨hp, fun q hq => le_of_lt (hlt q hq)⟩
      · constructor
        · refine List.pairwise_append.mpr ⟨hp, List.pairwise_singleton _ _, ?_⟩
          intro a ha b hb
          simp only [List.mem_singleton] at hb
          subst hb
          exact hlt a ha
        · intro q hq
          rcases List.mem_append.mp hq with hq | hq
          · exact le_of_lt (hlt q hq)
          · simp only [List.mem_singleton] at hq
            subst hq
            exact le_refl _
    simp only [runAux]
    cases hconf : (status geo cfg p.stepping.pos p.stepping.dir p.navigation).2 with
    | none =>
      simp only [hconf]
      cases htg : (target geo p.stepping.pos p.stepping.dir
          (status geo cfg p.stepping.pos p.stepping.dir p.navigation).1).2 with
      | none =>
        simp only [htg]
        exact hp
      | some d =>
        simp only [htg]
        refine ih _ _ hp ?_
        intro q hq
        have hd : 0 < d := target_pos_snd htg
        simp only [doStep]
        calc q.2 < p.stepping.pathAccumulated := hlt q hq
          _ < p.stepping.pathAccumulated + d := by linarith
    | some sid =>
      simp only [hconf]
      have hA := hacc'
        (acc ++ [(sid, p.stepping.pathAccumulated)])
        (Or.inr (by simp [hconf]))
      cases htg : (target geo p.stepping.pos p.stepping.dir
          (status geo cfg p.stepping.pos p.stepping.dir p.navigation).1).2 with
      | none =>
        simp only [htg]
        exact hA.1
      | some d =>
        simp only [htg]
        refine ih _ _ hA.1 ?_
        intro q hq
        have hd : 0 < d := target_pos_snd htg
        have hle := hA.2 q hq
        simp only [doStep]
        linarith

/-!
### The candidate-sequence invariant (spec section 3 / 4.2)
-/

/-- A candidate sequence is well-formed when it holds only viable candidates
(validity flag set, strictly positive signed distance at resolution time) and
is sorted by increasing path length with ties broken by surface identity. -/
def seqInv (l : List Candidate) : Prop :=
  (∀ c ∈ l, viableb c = true) ∧ l.Pairwise candLE

instance (l : List Candidate) : Decidable (seqInv l) := by
  unfold seqInv
  infer_instance

/-- All three candidate sequences of a navigation state are well-formed. -/
def stateInv (s : NavigationState) : Prop :=
  seqInv s.navSurfaces ∧ seqInv s.navLayers ∧ seqInv s.navBoundaries

instance (s : NavigationState) : Decidable (stateInv s) := by
  unfold stateInv
  infer_instance

theorem seqInv_nil : seqInv [] :=
  ⟨fun _ hc => absurd hc (List.not_mem_nil _), List.Pairwise.nil⟩

theorem seqInv_filterSort (l : List Candidate) : seqInv (filterSort l) :=
  ⟨fun _ hc => (mem_filterSort.mp hc).2, pairwise_filterSort l⟩

theorem seqInv_resolveSurfaceCands (geo : TrackingGeometry)
    (cfg : NavigatorCfg) (lid : Nat) (pos dir : Vec3) :
    seqInv (resolveSurfaceCands geo cfg lid pos dir) := by
  unfold resolveSurfaceCands
  split
  · exact seqInv_nil
  · exact seqInv_filterSort _

theorem seqInv_resolveLayerCands (geo : TrackingGeometry) (vol : Option Nat)
    (pos dir : Vec3) : seqInv (resolveLayerCands geo vol pos dir) := by
  unfold resolveLayerCands
  split
  · exact seqInv_nil
  · split
    · exact seqInv_nil
    · exact seqInv_filterSort _

theorem seqInv_resolveBoundaryCands (geo : TrackingGeometry)
    (vol : Option Nat) (pos dir : Vec3) :
    seqInv (resolveBoundaryCands geo vol pos dir) := by
  unfold resolveBoundaryCands
  split
  · exact seqInv_nil
  · split
    · exact seqInv_nil
    · exact seqInv_filterSort _

theorem stateInv_status (geo : TrackingGeometry) (cfg : NavigatorCfg)
    (pos dir : Vec3) (s : NavigationState) (hs : stateInv s) :
    stateInv (status geo cfg pos dir s).1 := by
  rcases hs with ⟨h1, h2, h3⟩
  by_cases hinit : s.initialized = false
  · simp only [status, if_pos hinit]
    exact ⟨seqInv_nil, seqInv_nil, seqInv_nil⟩
  · simp only [status, if_neg hinit]
    rcases ht : s.targeted with _ | ⟨k, i⟩
    · simp only [ht]
      exact ⟨h1, h2, h3⟩
    · simp only [ht]
      rcases hg : getCand s k i with _ | c
      · simp only [hg]
        exact ⟨h1, h2, h3⟩
      · simp only [hg]
        by_cases hos : onSurface geo cfg pos dir c.sid
        · simp only [if_pos hos]
          cases k
          · exact ⟨h1, h2, h3⟩
          · exact ⟨seqInv_resolveSurfaceCands geo cfg _ pos dir, h2, h3⟩
          · exact ⟨seqInv_nil, seqInv_nil, seqInv_nil⟩
        · simp only [if_neg hos]
          exact ⟨h1, h2, h3⟩

theorem stateInv_target3 (geo : TrackingGeometry) (pos dir : Vec3)
    (s : NavigationState) (hs : stateInv s) :
    stateInv (target3 geo pos dir s).1 := by
  rcases hs with ⟨h1, h2, h3⟩
  unfold target3
  split
  · split
    · exact ⟨h1, h2, h3⟩
    · exact ⟨h1, h2, h3⟩
  · split
    · exact ⟨h1, h2, seqInv_resolveBoundaryCands geo _ pos dir⟩
    · exact ⟨h1, h2, seqInv_resolveBoundaryCands geo _ pos dir⟩

theorem stateInv_target2 (geo : TrackingGeometry) (pos dir : Vec3)
    (s : NavigationState) (hs : stateInv s) :
    stateInv (target2 geo pos dir s).1 := by
  rcases hs with ⟨h1, h2, h3⟩
  unfold target2
  split
  · split
    · exact ⟨h1, h2, h3⟩
    · exact stateInv_target3 geo pos dir s ⟨h1, h2, h3⟩
  · split
    · exact ⟨h1, seqInv_resolveLayerCands geo _ pos dir, h3⟩
    · exact stateInv_target3 geo pos dir _
        ⟨h1, seqInv_resolveLayerCands geo _ pos dir, h3⟩

theorem stateInv_target (geo : TrackingGeometry) (pos dir : Vec3)
    (s : NavigationState) (hs : stateInv s) :
    stateInv (target geo pos dir s).1 := by
  rcases hs with ⟨h1, h2, h3⟩
  unfold target
  split
  · split
    · exact ⟨h1, h2, h3⟩
    · exact stateInv_target2 geo pos dir _ ⟨seqInv_nil, h2, h3⟩
  · exact stateInv_target2 geo pos dir s ⟨h1, h2, h3⟩

/-!
### Membership and frame lemmas for candidate resolution
-/

theorem mem_resolveLayerCands {geo : TrackingGeometry} {vol : Option Nat}
    {pos dir : Vec3} {c : Candidate}
    (hc : c ∈ resolveLayerCands geo vol pos dir) :
    ∃ vi v, vol = some vi ∧ geo.volumes[vi]? = some v ∧ c.oid ∈ v.layers := by
  unfold resolveLayerCands at hc
  split at hc
  · exact absurd hc (List.not_mem_nil c)
  · rename_i vi
    split at hc
    · exact absurd hc (List.not_mem_nil c)
    · rename_i v hv
      refine ⟨vi, v, rfl, hv, ?_⟩
      have hmem := (mem_filterSort.mp hc).1
      rcases List.mem_filterMap.mp hmem with ⟨lid, hlid, hmk⟩
      rcases Option.map_eq_some'.mp hmk with ⟨L, _, hLc⟩
      have : c.oid = lid := by rw [← hLc]
      rw [this]
      exact hlid

theorem mem_resolveBoundaryCands {geo : TrackingGeometry} {vol : Option Nat}
    {pos dir : Vec3} {c : Candidate}
    (hc : c ∈ resolveBoundaryCands geo vol pos dir) :
    ∃ vi v b, vol = some vi ∧ geo.volumes[vi]? = some v ∧ b ∈ v.boundaries ∧
      c.sid = b.surface := by
  unfold resolveBoundaryCands at hc
  split at hc
  · exact absurd hc (List.not_mem_nil c)
  · rename_i vi
    split at hc
    · exact absurd hc (List.not_mem_nil c)
    · rename_i v hv
      have hmem := (mem_filterSort.mp hc).1
      rcases List.mem_map.mp hmem with ⟨b, hb, hbc⟩
      refine ⟨vi, v, b, rfl, hv, hb, ?_⟩
      rw [← hbc]

theorem mem_resolveSurfaceCands {geo : TrackingGeometry} {cfg : NavigatorCfg}
    {lid : Nat} {L : LayerData} {pos dir : Vec3} {c : Candidate}
    (hL : geo.layers[lid]? = some L) :
    c ∈ resolveSurfaceCands geo cfg lid pos dir ↔
      ∃ pr ∈ L.surfaces, catFlag cfg pr.2 = true ∧
        c = ⟨pr.1, pr.1, geo.intersect pr.1 pos dir⟩ ∧ viableb c = true := by
  unfold resolveSurfaceCands
  rw [hL]
  rw [mem_filterSort]
  constructor
  · rintro ⟨hmem, hviable⟩
    rcases List.mem_map.mp hmem with ⟨pr, hpr, hprc⟩
    rcases List.mem_filter.mp hpr with ⟨hprL, hflag⟩
    exact ⟨pr, hprL, hflag, hprc.symm, hviable⟩
  · rintro ⟨pr, hprL, hflag, hc, hviable⟩
    refine ⟨List.mem_map.mpr ⟨pr, List.mem_filter.mpr ⟨hprL, hflag⟩, hc.symm⟩,
      hviable⟩

theorem target3_frame (geo : TrackingGeometry) (pos dir : Vec3)
    (s : NavigationState) :
    (target3 geo pos dir s).1.navLayers = s.navLayers ∧
      (target3 geo pos dir s).1.currentVolume = s.currentVolume ∧
      ((target3 geo pos dir s).1.navBoundaries = s.navBoundaries ∨
        (target3 geo pos dir s).1.navBoundaries
          = resolveBoundaryCands geo s.currentVolume pos dir) := by
  unfold target3
  split
  · split
    · exact ⟨rfl, rfl, Or.inl rfl⟩
    · exact ⟨rfl, rfl, Or.inl rfl⟩
  · split
    · exact ⟨rfl, rfl, Or.inr rfl⟩
    · exact ⟨rfl, rfl, Or.inr rfl⟩

theorem target2_unresolved (geo : TrackingGeometry) (pos dir : Vec3)
    (s : NavigationState) (h : s.layersResolved = false) :
    (target2 geo pos dir s).1.navLayers
        = resolveLayerCands geo s.currentVolume pos dir ∧
      (target2 geo pos dir s).1.currentVolume = s.currentVolume ∧
      ((target2 geo pos dir s).1.navBoundaries = s.navBoundaries ∨
        (target2 geo pos dir s).1.navBoundaries
          = resolveBoundaryCands geo s.currentVolume pos dir) := by
  unfold target2
  rw [if_neg (by simp [h])]
  split
  · exact ⟨rfl, rfl, Or.inl rfl⟩
  · rcases target3_frame geo pos dir
        { s with
          navLayers := resolveLayerCands geo s.currentVolume pos dir
          navLayerIdx := 0
          layersResolved := true } with ⟨hA, hB, hC⟩
    exact ⟨hA, hB, hC⟩

theorem target_unresolved (geo : TrackingGeometry) (pos dir : Vec3)
    (s : NavigationState) (hsf : s.surfacesResolved = false)
    (hly : s.layersResolved = false) :
    (target geo pos dir s).1.navLayers
        = resolveLayerCands geo s.currentVolume pos dir ∧
      (target geo pos dir s).1.currentVolume = s.currentVolume ∧
      ((target geo pos dir s).1.navBoundaries = s.navBoundaries ∨
        (target geo pos dir s).1.navBoundaries
          = resolveBoundaryCands geo s.currentVolume pos dir) := by
  unfold target
  rw [if_neg (by simp [hsf])]
  exact target2_unresolved geo pos dir s hly

/-!
### Idempotence machinery for `status`
-/

theorem status_noop (geo : TrackingGeometry) (cfg : NavigatorCfg)
    (pos dir : Vec3) (s : NavigationState) (hinit : ¬s.initialized = false)
    (ht : s.targeted = none) : status geo cfg pos dir s = (s, none) := by
  simp only [status, if_neg hinit, ht]

theorem status_after (geo : TrackingGeometry) (cfg : NavigatorCfg)
    (pos dir : Vec3) (s : NavigationState) :
    status geo cfg pos dir s = (s, none) ∨
      (¬(status geo cfg pos dir s).1.initialized = false ∧
        (status geo cfg pos dir s).1.targeted = none) := by
  by_cases hinit : s.initialized = false
  · right
    constructor
    · simp [status, if_pos hinit]
    · simp [status, if_pos hinit]
  · have hT : s.initialized = true := by
      revert hinit
      cases s.initialized <;> simp
    rcases ht : s.targeted with _ | ⟨k, i⟩
    · left
      exact status_noop geo cfg pos dir s hinit ht
    · rcases hg : getCand s k i with _ | c
      · left
        simp only [status, if_neg hinit, ht, hg]
      · by_cases hos : onSurface geo cfg pos dir c.sid
        · right
          simp only [status, if_neg hinit, ht, hg, if_pos hos]
          cases k
          · exact ⟨by simp [hT], rfl⟩
          · exact ⟨by simp [hT], rfl⟩
          · exact ⟨by simp [volumeSwitch, hT], rfl⟩
        · left
          simp only [status, if_neg hinit, ht, hg, if_neg hos]

theorem buildRange_length {f : Nat → Option α} :
    ∀ {n : Nat} {r : List α}, buildRange f n = some r → r.length = n := by
  intro n
  induction n with
  | zero => intro r h; simp [buildRange] at h; simp [← h]
  | succ m ih =>
    intro r h
    simp only [buildRange, Option.bind_eq_bind, Option.bind_eq_some] at h
    rcases h with ⟨xs, hxs, x, hx, hr⟩
    cases hr
    simp [ih hxs]

/-!
### Concrete test fixtures

A small two-volume geometry used to instantiate the hypotheses of the claim
theorems on concrete inputs: surfaces are planes crossed in order along the
`x` axis (layer approach surface 10 at `x = 10`; a sensitive surface 11, a
material surface 12 and a passive surface 13 just behind it; the boundary
surface 5 at `x = 20` leading into a second volume whose boundary surface 7
at `x = 30` exits the geometry).
-/

def wIntersect : Nat → Vec3 → Vec3 → Intersection := fun sid p _ =>
  if sid = 10 then ⟨true, 10 - p.x, ⟨10, 0, 0⟩⟩
  else if sid = 11 then ⟨true, 11 - p.x, ⟨11, 0, 0⟩⟩
  else if sid = 12 then ⟨true, 12 - p.x, ⟨12, 0, 0⟩⟩
  else if sid = 13 then ⟨true, 13 - p.x, ⟨13, 0, 0⟩⟩
  else if sid = 5 then ⟨true, 20 - p.x, ⟨20, 0, 0⟩⟩
  else if sid = 7 then ⟨true, 30 - p.x, ⟨30, 0, 0⟩⟩
  else ⟨false, 0, ⟨0, 0, 0⟩⟩

def wGeo : TrackingGeometry where
  volumes := [⟨[0], [⟨5, some 1⟩]⟩, ⟨[], [⟨7, none⟩]⟩]
  layers :=
    [⟨10, [(11, SurfaceCategory.sensitive), (12, SurfaceCategory.material),
           (13, SurfaceCategory.passive)]⟩]
  volumeAt := fun p =>
    if p.x < 20 then some 0 else if p.x < 30 then some 1 else none
  intersect := wIntersect

def wCfg : NavigatorCfg := ⟨true, true, false, 0⟩

def wPos : Vec3 := ⟨0, 0, 0⟩

def wDir : Vec3 := ⟨1, 0, 0⟩

/-- A position outside every volume of `wGeo` (`x = 50`). -/
def wPosOut : Vec3 := ⟨50, 0, 0⟩

/-- A beam-pipe geometry for the concrete transverse scenario: one volume
whose only layer is a cylindrical beam pipe of radius 19 coaxial with the
`z` axis; the trajectory starts at the origin with a unit direction in the
transverse plane, so the approach-surface intersection sits at path length 19
with transverse radius 19 (position `(19, 0, 0)`, `19² + 0² = 19²`; the
test's direction `(1,1,0).normalized` has irrational coordinates, so the
rational fixture uses the transverse unit direction `(1,0,0)` instead). -/
def bpGeo : TrackingGeometry where
  volumes := [⟨[0], []⟩]
  layers := [⟨10, []⟩]
  volumeAt := fun _ => some 0
  intersect := fun sid _ _ =>
    if sid = 10 then ⟨true, 19, ⟨19, 0, 0⟩⟩ else ⟨false, 0, ⟨0, 0, 0⟩⟩

def bpDir : Vec3 := ⟨1, 0, 0⟩

/-!
### The claims
-/

/-- C1: for every sequence of `status()`/`target()` calls driven by a stepper
that exactly satisfies each step-size constraint returned by `target()`, the
sequence of surfaces the Navigator reports as visited is in strictly
increasing path-length order measured from the trajectory's start. -/
theorem claim_C1_visit_order (geo : TrackingGeometry) (cfg : NavigatorCfg)
    (fuel : Nat) (p : PropState) :
    ((run geo cfg fuel p).1.map Prod.snd).Pairwise (· < ·) := by
  rw [List.pairwise_map]
  exact runAux_visits_pairwise geo cfg fuel p [] List.Pairwise.nil
    (by simp)

/-- C3: for every position inside the geometry, the first `status()` call on
an uninitialized `NavigationState` sets `startVolume` to
`trackingGeometry.volume(position)`, sets `currentVolume` equal to
`startVolume` (non-null), leaves `currentSurface` null, and leaves all three
candidate sequences empty. -/
theorem claim_C3_initialization (geo : TrackingGeometry) (cfg : NavigatorCfg)
    (pos dir : Vec3) (s : NavigationState) (v : Nat)
    (hinit : s.initialized = false) (hvol : geo.volumeAt pos = some v) :
    (status geo cfg pos dir s).1.startVolume = geo.volumeAt pos ∧
      (status geo cfg pos dir s).1.currentVolume
        = (status geo cfg pos dir s).1.startVolume ∧
      (status geo cfg pos dir s).1.currentVolume ≠ none ∧
      (status geo cfg pos dir s).1.currentSurface = none ∧
      (status geo cfg pos dir s).1.navSurfaces = [] ∧
      (status geo cfg pos dir s).1.navLayers = [] ∧
      (status geo cfg pos dir s).1.navBoundaries = [] := by
  refine ⟨?_, ?_, ?_, ?_, ?_, ?_, ?_⟩ <;>
    simp [status, if_pos hinit, hvol]

/-- Witness for C3: the fixture trajectory starts at the origin, inside
volume 0 of the fixture geometry. -/
theorem claim_C3_witness :
    (initialState.initialized = false ∧ wGeo.volumeAt wPos = some 0) ∧
      ((status wGeo wCfg wPos wDir initialState).1.startVolume
          = wGeo.volumeAt wPos ∧
        (status wGeo wCfg wPos wDir initialState).1.currentVolume
          = (status wGeo wCfg wPos wDir initialState).1.startVolume ∧
        (status wGeo wCfg wPos wDir initialState).1.currentVolume ≠ none ∧
        (status wGeo wCfg wPos wDir initialState).1.currentSurface = none ∧
        (status wGeo wCfg wPos wDir initialState).1.navSurfaces = [] ∧
        (status wGeo wCfg wPos wDir initialState).1.navLayers = [] ∧
        (status wGeo wCfg wPos wDir initialState).1.navBoundaries = []) :=
  ⟨⟨rfl, by decide⟩,
    claim_C3_initialization wGeo wCfg wPos wDir initialState 0 rfl (by decide)⟩

/-- C4: after every `status()` or `target()` call, each candidate sequence
contains only candidates with validity flag true and strictly positive signed
distance, sorted by increasing path length with ties broken by surface
identity (the `stateInv` invariant is preserved by both operations). -/
theorem claim_C4_candidate_invariant (geo : TrackingGeometry)
    (cfg : NavigatorCfg) (pos dir : Vec3) (s : NavigationState)
    (hs : stateInv s) :
    stateInv (status geo cfg pos dir s).1 ∧
      stateInv (target geo pos dir s).1 :=
  ⟨stateInv_status geo cfg pos dir s hs, stateInv_target geo pos dir s hs⟩

/-- Witness for C4: the invariant holds for the fresh navigation state and is
preserved by a concrete `status`/`target` call on the fixture geometry. -/
theorem claim_C4_witness :
    stateInv initialState ∧
      (stateInv (status wGeo wCfg wPos wDir initialState).1 ∧
        stateInv (target wGeo wPos wDir initialState).1) :=
  ⟨by decide, claim_C4_candidate_invariant wGeo wCfg wPos wDir initialState
    (by decide)⟩

/-- C6: calling `status()` twice with the same stepper position and direction
(no intervening stepper advance) leaves the navigation state — in particular
`currentVolume`, `currentSurface` and all three candidate-sequence iterator
positions — exactly as it was after the first call. -/
theorem claim_C6_status_idempotent (geo : TrackingGeometry)
    (cfg : NavigatorCfg) (pos dir : Vec3) (s : NavigationState) :
    (status geo cfg pos dir (status geo cfg pos dir s).1).1
      = (status geo cfg pos dir s).1 := by
  rcases status_after geo cfg pos dir s with h | ⟨h1, h2⟩
  · rw [h]
    dsimp only
    rw [h]
  · rw [status_noop geo cfg pos dir _ h1 h2]

/-- Counterexample for C9 as stated: the claim that `status()` mutates *only*
`currentSurface`, `currentVolume` and the iterator positions is refuted at a
concrete input — the initializing `status()` call also mutates
`startVolume` (from `none` to the resolved start volume), as the spec's own
initialization behavior requires. -/
theorem claim_C9_counterexample :
    ¬((status wGeo wCfg wPos wDir initialState).1.startVolume
        = initialState.startVolume) := by
  decide

/-- C9 (amended): `status()` never mutates the stepper state — position,
direction, step size and accumulated path are all unchanged; every mutation
is confined to the `NavigationState`. -/
theorem claim_C9_stepper_frame (geo : TrackingGeometry) (cfg : NavigatorCfg)
    (p : PropState) : (statusFull geo cfg p).stepping = p.stepping := rfl

/-- The propagation state after the very first `status()` call of a
propagation started at `pos`/`dir` with initial step size `σ` and accumulated
path `π`. -/
def afterFirstStatus (geo : TrackingGeometry) (cfg : NavigatorCfg)
    (pos dir : Vec3) (σ π : ℚ) : PropState :=
  statusFull geo cfg ⟨⟨pos, dir, σ, π⟩, initialState⟩

/-- The propagation state after the first `status()`/`target()` pair. -/
def afterFirstTarget (geo : TrackingGeometry) (cfg : NavigatorCfg)
    (pos dir : Vec3) (σ π : ℚ) : PropState :=
  targetFull geo (afterFirstStatus geo cfg pos dir σ π)

/-- C2: for a trajectory started inside a geometry whose current volume has a
single candidate layer — a cylindrical beam pipe coaxial with the `z` axis,
approached from the origin in the transverse plane, so that the approach
intersection at path length `R` sits at transverse radius `R` — the first
`status()`/`target()` pair puts exactly one candidate layer into `navLayers`
with the iterator at its beginning, and the step-size constraint written to
the stepper equals the transverse-plane radius of the candidate's
intersection point (stated exactly, via equal squares, which is stronger
than equality within the on-surface tolerance).  The test's direction
`(1,1,0).normalized` is one instance of the transverse unit directions
covered here. -/
theorem claim_C2_beampipe_first_pair (geo : TrackingGeometry)
    (cfg : NavigatorCfg) (pos dir : Vec3) (σ π R : ℚ) (vi lid : Nat)
    (v : VolumeData) (L : LayerData) (ip : Vec3)
    (hvol : geo.volumeAt pos = some vi)
    (hv : geo.volumes[vi]? = some v)
    (hlay : v.layers = [lid])
    (hL : geo.layers[lid]? = some L)
    (hit : geo.intersect L.approachId pos dir = ⟨true, R, ip⟩)
    (hR : 0 < R)
    (hperp : perpSq ip = R * R) :
    (afterFirstTarget geo cfg pos dir σ π).navigation.navLayers.length = 1 ∧
      (afterFirstTarget geo cfg pos dir σ π).navigation.navLayerIdx = 0 ∧
      (afterFirstTarget geo cfg pos dir σ π).stepping.stepSize = R ∧
      ∀ c ∈ (afterFirstTarget geo cfg pos dir σ π).navigation.navLayers,
        perpSq c.intersection.position
          = (afterFirstTarget geo cfg pos dir σ π).stepping.stepSize
            * (afterFirstTarget geo cfg pos dir σ π).stepping.stepSize := by
  refine ⟨?_, ?_, ?_, ?_⟩ <;>
    simp [afterFirstTarget, afterFirstStatus, statusFull, targetFull, status,
      target, target2, target3, resolveLayerCands, filterSort, sortCands,
      insertSorted, viableb, nextViable, nextViableAux, interAt, initialState,
      hvol, hv, hlay, hL, hit, hR, hperp]

/-- Witness for C2: the beam-pipe fixture geometry (radius 19, trajectory
from the origin with transverse unit direction `(3/5, 4/5, 0)`). -/
theorem claim_C2_witness :
    (bpGeo.volumeAt wPos = some 0 ∧
        bpGeo.volumes[0]? = some ⟨[0], []⟩ ∧
        bpGeo.layers[0]? = some ⟨10, []⟩ ∧
        bpGeo.intersect 10 wPos bpDir = ⟨true, 19, ⟨19, 0, 0⟩⟩ ∧
        (0:ℚ) < 19 ∧
        perpSq ⟨19, 0, 0⟩ = 19 * 19) ∧
      ((afterFirstTarget bpGeo wCfg wPos bpDir 100 0).navigation.navLayers.length
          = 1 ∧
        (afterFirstTarget bpGeo wCfg wPos bpDir 100 0).navigation.navLayerIdx
          = 0 ∧
        (afterFirstTarget bpGeo wCfg wPos bpDir 100 0).stepping.stepSize = 19 ∧
        ∀ c ∈ (afterFirstTarget bpGeo wCfg wPos bpDir 100 0).navigation.navLayers,
          perpSq c.intersection.position
            = (afterFirstTarget bpGeo wCfg wPos bpDir 100 0).stepping.stepSize
              * (afterFirstTarget bpGeo wCfg wPos bpDir 100 0).stepping.stepSize) :=
  ⟨⟨by decide, by decide, by decide, by decide, by decide, by simp [perpSq]⟩,
    claim_C2_beampipe_first_pair bpGeo wCfg wPos bpDir 100 0 19 0 0 ⟨[0], []⟩
      ⟨10, []⟩ ⟨19, 0, 0⟩ (by decide) (by decide) (by decide)
      (by decide) (by decide) (by decide) (by simp [perpSq])⟩

/-- C5: when `status()` confirms that the targeted boundary candidate has
been reached, `currentVolume` afterwards equals the neighboring volume
referenced by that boundary surface, the old volume's `navLayers` and
`navBoundaries` are discarded (reset, to be lazily re-populated for the new
volume), and whatever a subsequent `target()` call offers comes from the new
volume only: every layer candidate it holds is a layer of the new volume and
every boundary candidate it holds is a boundary surface of the new volume. -/
theorem claim_C5_volume_transition (geo : TrackingGeometry)
    (cfg : NavigatorCfg) (pos dir pos2 dir2 : Vec3) (s : NavigationState)
    (i nv : Nat) (c : Candidate) (v' : VolumeData)
    (hinit : ¬s.initialized = false)
    (ht : s.targeted = some (SeqKind.boundaries, i))
    (hg : getCand s SeqKind.boundaries i = some c)
    (hos : onSurface geo cfg pos dir c.sid)
    (hnb : lookupNeighbor geo s.currentVolume c.sid = some nv)
    (hv' : geo.volumes[nv]? = some v') :
    ((status geo cfg pos dir s).1.currentVolume = some nv ∧
        (status geo cfg pos dir s).1.navLayers = [] ∧
        (status geo cfg pos dir s).1.navBoundaries = []) ∧
      (∀ c' ∈ (target geo pos2 dir2 (status geo cfg pos dir s).1).1.navLayers,
          c'.oid ∈ v'.layers) ∧
      (∀ c' ∈
          (target geo pos2 dir2 (status geo cfg pos dir s).1).1.navBoundaries,
          ∃ b ∈ v'.boundaries, c'.sid = b.surface) := by
  have hs1 : (status geo cfg pos dir s).1 = volumeSwitch geo s c := by
    simp only [status, if_neg hinit, ht, hg, if_pos hos]
  rw [hs1]
  refine ⟨⟨by simp [volumeSwitch, hnb], rfl, rfl⟩, ?_, ?_⟩
  · intro c' hc'
    rcases target_unresolved geo pos2 dir2 (volumeSwitch geo s c) rfl rfl
      with ⟨hA, _, _⟩
    rw [hA] at hc'
    rcases mem_resolveLayerCands hc' with ⟨vi2, v2, hvi2, hv2, hmem⟩
    have hvi2' : vi2 = nv := by
      simp only [volumeSwitch, hnb] at hvi2
      exact (Option.some_inj.mp hvi2).symm
    subst hvi2'
    rw [hv2] at hv'
    cases Option.some_inj.mp hv'
    exact hmem
  · intro c' hc'
    rcases target_unresolved geo pos2 dir2 (volumeSwitch geo s c) rfl rfl
      with ⟨_, _, hC⟩
    rcases hC with hC | hC
    · rw [hC] at hc'
      exact absurd hc' (List.not_mem_nil c')
    · rw [hC] at hc'
      rcases mem_resolveBoundaryCands hc' with ⟨vi2, v2, b, hvi2, hv2, hb, hsid⟩
      have hvi2' : vi2 = nv := by
        simp only [volumeSwitch, hnb] at hvi2
        exact (Option.some_inj.mp hvi2).symm
      subst hvi2'
      rw [hv2] at hv'
      cases Option.some_inj.mp hv'
      exact ⟨b, hb, hsid⟩

/-- The navigation state of a propagation that has targeted the fixture's
boundary surface 5 (between volumes 0 and 1) and stepped onto it. -/
def wBoundaryState : NavigationState :=
  { initialState with
    initialized := true
    startVolume := some 0
    currentVolume := some 0
    navBoundaries := [⟨5, 5, ⟨true, 20, ⟨20, 0, 0⟩⟩⟩]
    navBoundaryIdx := 0
    boundariesResolved := true
    targeted := some (SeqKind.boundaries, 0) }

/-- The fixture position on boundary surface 5 (`x = 20`). -/
def wPosB : Vec3 := ⟨20, 0, 0⟩

/-- Witness for C5: confirming boundary 5 at `x = 20` switches from fixture
volume 0 to volume 1. -/
theorem claim_C5_witness :
    (¬wBoundaryState.initialized = false ∧
        wBoundaryState.targeted = some (SeqKind.boundaries, 0) ∧
        getCand wBoundaryState SeqKind.boundaries 0
          = some ⟨5, 5, ⟨true, 20, ⟨20, 0, 0⟩⟩⟩ ∧
        onSurface wGeo wCfg wPosB wDir 5 ∧
        lookupNeighbor wGeo wBoundaryState.currentVolume 5 = some 1 ∧
        wGeo.volumes[1]? = some ⟨[], [⟨7, none⟩]⟩) ∧
      (((status wGeo wCfg wPosB wDir wBoundaryState).1.currentVolume = some 1 ∧
          (status wGeo wCfg wPosB wDir wBoundaryState).1.navLayers = [] ∧
          (status wGeo wCfg wPosB wDir wBoundaryState).1.navBoundaries = []) ∧
        (∀ c' ∈ (target wGeo wPosB wDir
              (status wGeo wCfg wPosB wDir wBoundaryState).1).1.navLayers,
            c'.oid ∈ (⟨[], [⟨7, none⟩]⟩ : VolumeData).layers) ∧
        (∀ c' ∈ (target wGeo wPosB wDir
              (status wGeo wCfg wPosB wDir wBoundaryState).1).1.navBoundaries,
            ∃ b ∈ (⟨[], [⟨7, none⟩]⟩ : VolumeData).boundaries,
              c'.sid = b.surface)) :=
  ⟨⟨by decide, by decide, by decide,
      by simp [onSurface, absQ, wGeo, wIntersect, wPosB, wCfg],
      by decide, by decide⟩,
    claim_C5_volume_transition wGeo wCfg wPosB wDir wPosB wDir wBoundaryState
      0 1 ⟨5, 5, ⟨true, 20, ⟨20, 0, 0⟩⟩⟩ ⟨[], [⟨7, none⟩]⟩ (by decide)
      (by decide) (by decide)
      (by simp [onSurface, absQ, wGeo, wIntersect, wPosB, wCfg])
      (by decide) (by decide)⟩

/-- C7: with `resolveSensitive = true`, `resolveMaterial = false`,
`resolvePassive = false`, the `navSurfaces` population computed on entering a
layer contains exactly that layer's sensitive surfaces (all assumed to
intersect viably) and no material-only or passive-only surfaces; moreover,
for every configuration, a candidate enters the population only if its
category's switch is on — the three switches independently gate their
categories. -/
theorem claim_C7_resolve_switches (geo : TrackingGeometry) (lid : Nat)
    (L : LayerData) (pos dir : Vec3) (tol : ℚ)
    (hL : geo.layers[lid]? = some L)
    (hviable : ∀ pr ∈ L.surfaces, pr.2 = SurfaceCategory.sensitive →
        (geo.intersect pr.1 pos dir).valid = true ∧
          0 < (geo.intersect pr.1 pos dir).path) :
    (∀ sid,
        (∃ c ∈ resolveSurfaceCands geo ⟨true, false, false, tol⟩ lid pos dir,
            c.sid = sid) ↔
          ∃ pr ∈ L.surfaces, pr.1 = sid ∧ pr.2 = SurfaceCategory.sensitive) ∧
      ∀ (cfg : NavigatorCfg) (c : Candidate),
        c ∈ resolveSurfaceCands geo cfg lid pos dir →
          ∃ cat, (c.sid, cat) ∈ L.surfaces ∧ catFlag cfg cat = true := by
  constructor
  · intro sid
    constructor
    · rintro ⟨c, hc, rfl⟩
      rcases (mem_resolveSurfaceCands hL).mp hc with ⟨pr, hpr, hflag, hcs, _⟩
      refine ⟨pr, hpr, ?_, ?_⟩
      · rw [hcs]
      · cases hcat : pr.2
        · rfl
        · rw [hcat] at hflag
          exact absurd hflag (by simp [catFlag])
        · rw [hcat] at hflag
          exact absurd hflag (by simp [catFlag])
    · rintro ⟨pr, hpr, rfl, hsens⟩
      have hv := hviable pr hpr hsens
      refine ⟨⟨pr.1, pr.1, geo.intersect pr.1 pos dir⟩, ?_, rfl⟩
      refine (mem_resolveSurfaceCands hL).mpr ⟨pr, hpr, ?_, rfl, ?_⟩
      · rw [hsens]
        rfl
      · simp [viableb, hv.1, hv.2]
  · intro cfg c hc
    rcases (mem_resolveSurfaceCands hL).mp hc with ⟨pr, hpr, hflag, hcs, _⟩
    refine ⟨pr.2, ?_, hflag⟩
    have : (c.sid, pr.2) = pr := by
      rw [hcs]
    rw [this]
    exact hpr

/-- Witness for C7: the fixture layer with one sensitive, one material and
one passive surface, intersected from the origin. -/
theorem claim_C7_witness :
    (wGeo.layers[0]? = some ⟨10, [(11, SurfaceCategory.sensitive),
          (12, SurfaceCategory.material), (13, SurfaceCategory.passive)]⟩ ∧
        (∀ pr ∈ (⟨10, [(11, SurfaceCategory.sensitive),
              (12, SurfaceCategory.material),
              (13, SurfaceCategory.passive)]⟩ : LayerData).surfaces,
            pr.2 = SurfaceCategory.sensitive →
              (wGeo.intersect pr.1 wPos wDir).valid = true ∧
                0 < (wGeo.intersect pr.1 wPos wDir).path)) ∧
      ((∀ sid,
          (∃ c ∈ resolveSurfaceCands wGeo ⟨true, false, false, 0⟩ 0 wPos wDir,
              c.sid = sid) ↔
            ∃ pr ∈ (⟨10, [(11, SurfaceCategory.sensitive),
                (12, SurfaceCategory.material),
                (13, SurfaceCategory.passive)]⟩ : LayerData).surfaces,
              pr.1 = sid ∧ pr.2 = SurfaceCategory.sensitive) ∧
        ∀ (cfg : NavigatorCfg) (c : Candidate),
          c ∈ resolveSurfaceCands wGeo cfg 0 wPos wDir →
            ∃ cat, (c.sid, cat) ∈ (⟨10, [(11, SurfaceCategory.sensitive),
                (12, SurfaceCategory.material),
                (13, SurfaceCategory.passive)]⟩ : LayerData).surfaces ∧
              catFlag cfg cat = true) :=
  ⟨⟨by decide, by simp [wGeo, wIntersect, wPos]⟩,
    claim_C7_resolve_switches wGeo 0
      ⟨10, [(11, SurfaceCategory.sensitive), (12, SurfaceCategory.material),
        (13, SurfaceCategory.passive)]⟩ wPos wDir 0 (by decide)
      (by simp [wGeo, wIntersect, wPos])⟩

/-- C8: a trajectory starting outside the outermost volume's boundaries
reaches the `GeometryExhausted` terminal report (a `none` step-size result,
after the lazy boundary re-population still produced nothing) with zero
layers and zero surfaces resolved, and the stepper's step-size field is left
unmodified. -/
theorem claim_C8_geometry_exhausted (geo : TrackingGeometry)
    (cfg : NavigatorCfg) (pos dir : Vec3) (σ π : ℚ)
    (hout : geo.volumeAt pos = none) :
    (target geo pos dir (afterFirstStatus geo cfg pos dir σ π).navigation).2
        = none ∧
      (afterFirstTarget geo cfg pos dir σ π).navigation.navSurfaces = [] ∧
      (afterFirstTarget geo cfg pos dir σ π).navigation.navLayers = [] ∧
      (afterFirstTarget geo cfg pos dir σ π).navigation.navBoundaries = [] ∧
      (afterFirstTarget geo cfg pos dir σ π).stepping.stepSize = σ := by
  refine ⟨?_, ?_, ?_, ?_, ?_⟩ <;>
    simp [afterFirstTarget, afterFirstStatus, statusFull, targetFull, status,
      target, target2, target3, resolveLayerCands, resolveBoundaryCands,
      nextViable, nextViableAux, initialState, hout]

/-- Witness for C8: the fixture trajectory started at `x = 50`, outside both
fixture volumes. -/
theorem claim_C8_witness :
    wGeo.volumeAt wPosOut = none ∧
      ((target wGeo wPosOut wDir
            (afterFirstStatus wGeo wCfg wPosOut wDir 100 0).navigation).2
          = none ∧
        (afterFirstTarget wGeo wCfg wPosOut wDir 100 0).navigation.navSurfaces
          = [] ∧
        (afterFirstTarget wGeo wCfg wPosOut wDir 100 0).navigation.navLayers
          = [] ∧
        (afterFirstTarget wGeo wCfg wPosOut wDir 100
            0).navigation.navBoundaries = [] ∧
        (afterFirstTarget wGeo wCfg wPosOut wDir 100 0).stepping.stepSize
          = 100) :=
  ⟨by decide, claim_C8_geometry_exhausted wGeo wCfg wPosOut wDir 100 0
    (by decide)⟩

theorem buildPosneg_length {cfg : PLBConfig}
    {n p : List DiscLayerRec} (h : buildPosneg cfg = some (n, p)) :
    n.length = cfg.posnegLayerPositionZ.length ∧
      p.length = cfg.posnegLayerPositionZ.length := by
  unfold buildPosneg at h
  split at h
  · simp at h
  · rename_i pairs hbr
    simp only [Option.some_inj, Prod.mk.injEq] at h
    have hlen := buildRange_length hbr
    constructor
    · rw [← h.1, List.length_map, hlen]
    · rw [← h.2, List.length_map, hlen]

/-- C10: for every configuration that builds without an out-of-range access,
`PassiveLayerBuilder::constructLayers` (run by `setConfiguration`, hence also
by the constructor) produces exactly `centralLayerRadii.size` central
cylinder layers and exactly `posnegLayerPositionZ.size` positive-side plus
as many negative-side disc layers, and the stored layers are rebuilt from the
configuration alone — a second `setConfiguration` call from any previous
builder state yields the same layers, replacing rather than accumulating. -/
theorem claim_C10_passive_layer_builder (b : PassiveLayerBuilder)
    (cfg : PLBConfig) (b' : PassiveLayerBuilder)
    (h : setConfiguration b cfg = some b') :
    b'.cLayers.length = cfg.centralLayerRadii.length ∧
      b'.nLayers.length = cfg.posnegLayerPositionZ.length ∧
      b'.pLayers.length = cfg.posnegLayerPositionZ.length ∧
      (∀ b2 : PassiveLayerBuilder, setConfiguration b2 cfg = some b') ∧
      mkPassiveLayerBuilder cfg = some b' := by
  unfold setConfiguration at h
  rcases hcl : constructLayers cfg with _ | cnp
  · rw [hcl] at h
    simp at h
  · rw [hcl] at h
    simp only [Option.map_some', Option.some_inj] at h
    rcases cnp with ⟨c, n, p⟩
    have hcl' := hcl
    unfold constructLayers at hcl'
    split at hcl'
    · simp at hcl'
    · rename_i cl hbc
      split at hcl'
      · simp at hcl'
      · rename_i np hbp
        simp only [Option.some_inj, Prod.mk.injEq] at hcl'
        rcases hcl' with ⟨hc, hn, hp⟩
        rcases np with ⟨n0, p0⟩
        rcases buildPosneg_length hbp with ⟨hn0, hp0⟩
        dsimp only at hn hp
        have hcLen : c.length = cfg.centralLayerRadii.length := by
          rw [← hc]
          exact buildRange_length hbc
        refine ⟨?_, ?_, ?_, ?_, ?_⟩
        · rw [← h]
          exact hcLen
        · rw [← h]
          dsimp only
          rw [← hn]
          exact hn0
        · rw [← h]
          dsimp only
          rw [← hp]
          exact hp0
        · intro b2
          unfold setConfiguration
          rw [hcl]
          simp only [Option.map_some', Option.some_inj]
          rw [← h]
        · unfold mkPassiveLayerBuilder setConfiguration
          rw [hcl]
          simp only [Option.map_some', Option.some_inj]
          rw [← h]

/-- A concrete `PassiveLayerBuilder` configuration: one central layer and one
pair of side layers, all material lists populated. -/
def wPLBCfg : PLBConfig where
  centralLayerRadii := [19]
  centralLayerHalflengthZ := [200]
  centralLayerThickness := [2]
  centralLayerMaterial := [7]
  posnegLayerPositionZ := [500]
  posnegLayerRmin := [10]
  posnegLayerRmax := [90]
  posnegLayerThickness := [3]
  posnegLayerMaterial := [8]

/-- The builder produced by `setConfiguration` from `wPLBCfg`. -/
def wPLBResult : PassiveLayerBuilder where
  cfg := wPLBCfg
  cLayers := [⟨19, 200, 2, some (7, 2)⟩]
  nLayers := [⟨-500, 10, 90, 3, some (8, 3)⟩]
  pLayers := [⟨500, 10, 90, 3, some (8, 3)⟩]

/-- Witness for C10: rebuilding from `wPLBCfg` out of an arbitrary prior
builder state yields exactly the layers of `wPLBResult`. -/
theorem claim_C10_witness :
    setConfiguration ⟨wPLBCfg, [], [], []⟩ wPLBCfg = some wPLBResult ∧
      (wPLBResult.cLayers.length = wPLBCfg.centralLayerRadii.length ∧
        wPLBResult.nLayers.length = wPLBCfg.posnegLayerPositionZ.length ∧
        wPLBResult.pLayers.length = wPLBCfg.posnegLayerPositionZ.length ∧
        (∀ b2 : PassiveLayerBuilder,
          setConfiguration b2 wPLBCfg = some wPLBResult) ∧
        mkPassiveLayerBuilder wPLBCfg = some wPLBResult) :=
  ⟨by decide,
    claim_C10_passive_layer_builder ⟨wPLBCfg, [], [], []⟩ wPLBCfg wPLBResult
      (by decide)⟩

end ActsSpec
